import Mathlib

/-!
Verification of the lead-ingestion core of the leadCRM repository.

The embedding models, from the TypeScript source:
- `src/types/lead.ts`: the `CrmLeadPayload` shape and the response shapes;
- `src/utils/errors.ts`: `isPrismaUniqueConstraintError` and
  `isIdempotencyKeyConstraintError` (Prisma errors are modelled as a tagged
  value carrying the Prisma error code and the `meta.target` field list);
- `src/services/leadService.ts`: `ingestLead`, with the Prisma store
  modelled as two in-memory tables with a uniqueness constraint on the
  idempotency-key column (nulls exempt) and a primary-key constraint on id,
  plus injectable faults standing for connectivity or other storage errors.

JavaScript `x || null` / `x || undefined` on nullable strings is modelled by
`orNull` (the empty string is falsy, hence coerced to null/undefined).
A thrown exception that `ingestLead` does not catch is modelled by the
`thrown` outcome, distinct from the returned `{ success: false }` value.
The run records the store operations attempted and the log calls made, so
that claims about retries, operation ordering and logging are statable.
-/

namespace LeadCRM

/-- The payload shape from `src/types/lead.ts` (`CrmLeadPayload`): fourteen
nullable string fields. `none` models both JSON `null` and an absent field
(both read back as nullish and behave identically under `||`). -/
structure CrmLeadPayload where
  click_id : Option String
  country : Option String
  creo : Option String
  description : Option String
  domain : Option String
  email : Option String
  firstName : Option String
  ip : Option String
  lang : Option String
  lastName : Option String
  marker : Option String
  offer : Option String
  phone : Option String
  sourcetype : Option String
deriving DecidableEq, Repr

/-- JavaScript `x || null` (equally `x || undefined`) on a `string | null`
value: `null` and the empty string (both falsy) become `none`; any other
string is kept. -/
def orNull (x : Option String) : Option String :=
  match x with
  | none => none
  | some s => if s = "" then none else some s

/-- A `Prisma.PrismaClientKnownRequestError`: its `code` and the
`meta.target` field list (`none` models an absent `meta`/`target`). -/
structure PrismaKnownError where
  code : String
  target : Option (List String)
deriving DecidableEq, Repr

/-- A failure surfaced by the store: either a Prisma known request error or
any other thrown value (connectivity, serialization, ...), carried opaquely. -/
inductive StoreError where
  | known (e : PrismaKnownError)
  | unknown (msg : String)
deriving DecidableEq, Repr

/-- `isPrismaUniqueConstraintError` from `src/utils/errors.ts`: the error is
a Prisma known request error with code P2002. -/
def isPrismaUniqueConstraintError (error : StoreError) : Bool :=
  match error with
  | .known e => e.code = "P2002"
  | .unknown _ => false

/-- JavaScript `s.includes(sub)`: `sub` occurs as a contiguous substring of
`s`. -/
def jsIncludes (s sub : String) : Bool :=
  (List.range (s.data.length + 1)).any (fun i => sub.data.isPrefixOf (s.data.drop i))

/-- JavaScript `s.toLowerCase()` (character-wise lowering suffices for the
ASCII field names compared here). -/
def jsToLower (s : String) : String :=
  ⟨s.data.map Char.toLower⟩

/-- `isIdempotencyKeyConstraintError` from `src/utils/errors.ts`: a P2002
error whose `meta.target` list contains `idempotencyKey` or
`idempotency_key` literally, or any field whose lowercased name contains the
substring `idempotency`. -/
def isIdempotencyKeyConstraintError (error : StoreError) : Bool :=
  if !isPrismaUniqueConstraintError error then false
  else
    match error with
    | .unknown _ => false
    | .known e =>
      let target := e.target.getD []
      target.contains "idempotencyKey" ||
      target.contains "idempotency_key" ||
      target.any (fun field => jsIncludes (jsToLower field) "idempotency")

/-- A row of the `leads_raw` table (`prisma.leadRaw.create` data). -/
structure LeadRawRow where
  id : String
  idempotencyKey : Option String
  xRequestId : Option String
  payload : CrmLeadPayload
deriving DecidableEq, Repr

/-- A row of the `leads` table (`prisma.lead.create` data). -/
structure LeadRow where
  id : String
  clickId : Option String
  country : Option String
  creo : Option String
  description : Option String
  domain : Option String
  email : Option String
  firstName : Option String
  lastName : Option String
  ip : Option String
  lang : Option String
  marker : Option String
  offer : Option String
  phone : Option String
  sourcetype : Option String
  idempotencyKey : Option String
  xRequestId : Option String
  status : String
deriving DecidableEq, Repr

/-- The two logical tables, in insertion order. -/
structure Db where
  leadRaw : List LeadRawRow
  leads : List LeadRow
deriving DecidableEq, Repr

/-- Injectable storage faults: when a component is `some e`, the
corresponding store call fails with `e` instead of executing (modelling
connectivity errors, serialization errors, or constraint errors reported by
a concurrent writer). `none` means the call executes against the tables. -/
structure Faults where
  raw : Option StoreError
  lead : Option StoreError
  lookup : Option StoreError
deriving DecidableEq, Repr

/-- No injected faults: every store call executes against the tables. -/
def Faults.none : Faults := ⟨Option.none, Option.none, Option.none⟩

/-- The options record taken by `ingestLead`. -/
structure IngestLeadOptions where
  payload : CrmLeadPayload
  idempotencyKey : Option String
  xRequestId : Option String
deriving DecidableEq, Repr

/-- The success value `{ ok, lead_id, deduplicated }` built by `ingestLead`. -/
structure LeadSuccessResponse where
  ok : Bool
  lead_id : String
  deduplicated : Bool
deriving DecidableEq, Repr

/-- What a call to `ingestLead` produces: a returned success value, a
returned `{ success: false, error }` value, or an exception that escapes the
function uncaught. -/
inductive IngestOutcome where
  | success (response : LeadSuccessResponse)
  | failure (error : StoreError)
  | thrown (error : StoreError)
deriving DecidableEq, Repr

/-- A log call made during the run: `logger.info`, `logger.error`, or the
`logError` helper from `src/utils/errors.ts` with its full context (step
name, the error, leadId, idempotency key, request id, and the original
payload). -/
inductive LogEntry where
  | info (msg : String)
  | errorLog (msg : String)
  | errorDetail (step : String) (error : StoreError) (leadId : String)
      (idempotencyKey : Option String) (xRequestId : Option String)
      (payload : CrmLeadPayload)
deriving DecidableEq, Repr

/-- A store operation attempted during the run. -/
inductive StoreOp where
  | rawCreate (row : LeadRawRow)
  | leadCreate (row : LeadRow)
  | findFirst (whereKey : Option String)
deriving DecidableEq, Repr

/-- The `leads_raw` row `ingestLead` builds for the raw-capture insert. -/
def rawRowOf (leadId : String) (opts : IngestLeadOptions) : LeadRawRow :=
  { id := leadId
    idempotencyKey := orNull opts.idempotencyKey
    xRequestId := orNull opts.xRequestId
    payload := opts.payload }

/-- The `leads` row `ingestLead` builds for the normalization insert: each
payload field passed through `|| null`, the same generated id, the same
coerced correlation fields, and the fixed initial status. -/
def leadRowOf (leadId : String) (opts : IngestLeadOptions) : LeadRow :=
  { id := leadId
    clickId := orNull opts.payload.click_id
    country := orNull opts.payload.country
    creo := orNull opts.payload.creo
    description := orNull opts.payload.description
    domain := orNull opts.payload.domain
    email := orNull opts.payload.email
    firstName := orNull opts.payload.firstName
    lastName := orNull opts.payload.lastName
    ip := orNull opts.payload.ip
    lang := orNull opts.payload.lang
    marker := orNull opts.payload.marker
    offer := orNull opts.payload.offer
    phone := orNull opts.payload.phone
    sourcetype := orNull opts.payload.sourcetype
    idempotencyKey := orNull opts.idempotencyKey
    xRequestId := orNull opts.xRequestId
    status := "new" }

/-- `prisma.leadRaw.create`: an injected fault fails the call; otherwise the
primary-key constraint on `id` and the uniqueness constraint on the
idempotency-key column (nulls exempt) are enforced, and on success the row
is appended. -/
def rawCreate (fault : Option StoreError) (db : Db) (row : LeadRawRow) :
    Except StoreError Db :=
  match fault with
  | some e => .error e
  | none =>
    if db.leadRaw.any (fun r => r.id = row.id) then
      .error (.known ⟨"P2002", some ["id"]⟩)
    else if row.idempotencyKey.isSome &&
        db.leadRaw.any (fun r => r.idempotencyKey = row.idempotencyKey) then
      .error (.known ⟨"P2002", some ["idempotency_key"]⟩)
    else
      .ok { db with leadRaw := db.leadRaw ++ [row] }

/-- `prisma.lead.create`: same shape as `rawCreate` for the `leads` table. -/
def leadCreate (fault : Option StoreError) (db : Db) (row : LeadRow) :
    Except StoreError Db :=
  match fault with
  | some e => .error e
  | none =>
    if db.leads.any (fun r => r.id = row.id) then
      .error (.known ⟨"P2002", some ["id"]⟩)
    else if row.idempotencyKey.isSome &&
        db.leads.any (fun r => r.idempotencyKey = row.idempotencyKey) then
      .error (.known ⟨"P2002", some ["idempotencyKey"]⟩)
    else
      .ok { db with leads := db.leads ++ [row] }

/-- `prisma.lead.findFirst({ where: { idempotencyKey: k } })` where `k` being
`none` models the Prisma `undefined` filter (the condition is dropped and the
first row of the table, if any, is returned); `some k` filters on equality
with the non-null key `k`. An injected fault makes the call throw. -/
def findFirst (fault : Option StoreError) (db : Db) (whereKey : Option String) :
    Except StoreError (Option LeadRow) :=
  match fault with
  | some e => .error e
  | none =>
    match whereKey with
    | none => .ok db.leads.head?
    | some k => .ok (db.leads.find? (fun r => r.idempotencyKey = some k))

/-- The observable result of a call: the outcome, the final table state, the
log calls in order, and the store operations attempted in order. -/
structure Run where
  outcome : IngestOutcome
  db : Db
  logs : List LogEntry
  ops : List StoreOp
deriving DecidableEq, Repr

/-- Step 2 of `ingestLead` (the second `try` block of
`src/services/leadService.ts`): insert the normalized lead; on an
idempotency-key constraint violation, look up the existing lead by the
coerced key and return its id with `deduplicated = true`, or fail if none is
found; on any other insert failure, log full context and fail. A lookup
failure is not caught and escapes as `thrown`. -/
def normalizeStep (faults : Faults) (leadId : String) (opts : IngestLeadOptions)
    (db : Db) : Run :=
  let row := leadRowOf leadId opts
  match leadCreate faults.lead db row with
  | .ok db2 =>
    { outcome := .success ⟨true, leadId, false⟩
      db := db2
      logs := [.info "Lead created successfully"]
      ops := [.leadCreate row] }
  | .error error =>
    if isIdempotencyKeyConstraintError error then
      let whereKey := orNull opts.idempotencyKey
      match findFirst faults.lookup db whereKey with
      | .error e2 =>
        { outcome := .thrown e2
          db := db
          logs := [.info "Lead deduplicated (idempotency key match)"]
          ops := [.leadCreate row, .findFirst whereKey] }
      | .ok none =>
        { outcome := .failure error
          db := db
          logs := [.info "Lead deduplicated (idempotency key match)",
                   .errorLog "Idempotency key conflict but existing lead not found"]
          ops := [.leadCreate row, .findFirst whereKey] }
      | .ok (some existingLead) =>
        { outcome := .success ⟨true, existingLead.id, true⟩
          db := db
          logs := [.info "Lead deduplicated (idempotency key match)"]
          ops := [.leadCreate row, .findFirst whereKey] }
    else
      { outcome := .failure error
        db := db
        logs := [.errorDetail "normalized_storage" error leadId
                   opts.idempotencyKey opts.xRequestId opts.payload]
        ops := [.leadCreate row] }

/-- `ingestLead` from `src/services/leadService.ts`, with the generated UUID
passed in as `leadId`: store the raw payload first (an idempotency-key
conflict there is benign and the run continues; any other raw-storage
failure is logged with full context and returned as failure), then run the
normalization step. -/
def ingestLead (faults : Faults) (leadId : String) (opts : IngestLeadOptions)
    (db : Db) : Run :=
  let row := rawRowOf leadId opts
  match rawCreate faults.raw db row with
  | .ok db1 =>
    let rest := normalizeStep faults leadId opts db1
    { outcome := rest.outcome
      db := rest.db
      logs := [.info "Starting lead ingestion", .info "Raw lead stored successfully"]
                ++ rest.logs
      ops := .rawCreate row :: rest.ops }
  | .error error =>
    if isIdempotencyKeyConstraintError error then
      let rest := normalizeStep faults leadId opts db
      { outcome := rest.outcome
        db := rest.db
        logs := [.info "Starting lead ingestion",
                 .info "Raw lead already exists (idempotency key conflict), continuing with normalized storage"]
                  ++ rest.logs
        ops := .rawCreate row :: rest.ops }
    else
      { outcome := .failure error
        db := db
        logs := [.info "Starting lead ingestion",
                 .errorDetail "raw_storage" error leadId
                   opts.idempotencyKey opts.xRequestId opts.payload]
        ops := [.rawCreate row] }

/-- A payload with every field null. -/
def emptyPayload : CrmLeadPayload :=
  ⟨none, none, none, none, none, none, none, none, none, none, none, none, none, none⟩

/-- The `meta.target` field list of an error (empty when absent or when the
error is not a Prisma known request error). -/
def targetOf (error : StoreError) : List String :=
  match error with
  | .known e => e.target.getD []
  | .unknown _ => []

/-- Modelled from the spec's words, for comparison with the source
classifier: a unique-constraint violation whose violated fields contain the
idempotency-key field under one of its naming variants (`idempotencyKey` or
`idempotency_key`), compared case-insensitively. -/
def specIsIdempotencyKeyError (error : StoreError) : Bool :=
  isPrismaUniqueConstraintError error &&
    (targetOf error).any (fun field =>
      jsToLower field = "idempotencykey" || jsToLower field = "idempotency_key")

/-- The table state with which the normalization step runs, when `ingestLead`
reaches it: the updated state after a successful raw insert, the unchanged
state after a benign idempotency-key conflict, and `none` when the raw step
fails fatally (the call returns before normalization). -/
def dbAfterRawStep (faults : Faults) (leadId : String) (opts : IngestLeadOptions)
    (db : Db) : Option Db :=
  match rawCreate faults.raw db (rawRowOf leadId opts) with
  | .ok db1 => some db1
  | .error e => if isIdempotencyKeyConstraintError e then some db else none

/-- Whether a log entry is a `logError` call (the full-context error logger). -/
def isErrorDetailEntry (entry : LogEntry) : Bool :=
  match entry with
  | .errorDetail _ _ _ _ _ _ => true
  | _ => false

/-- Whether a store operation is a raw-capture insert. -/
def isRawCreateOp (op : StoreOp) : Bool :=
  match op with
  | .rawCreate _ => true
  | _ => false

/-- Whether a store operation is a normalized-lead insert. -/
def isLeadCreateOp (op : StoreOp) : Bool :=
  match op with
  | .leadCreate _ => true
  | _ => false

/-- Whether a store operation is an existing-lead lookup. -/
def isFindFirstOp (op : StoreOp) : Bool :=
  match op with
  | .findFirst _ => true
  | _ => false

/-!
Helper lemmas about the store primitives and the shape of a run.
-/

theorem rawCreate_ok_iff {fault : Option StoreError} {db : Db} {row : LeadRawRow}
    {db1 : Db} (h : rawCreate fault db row = .ok db1) :
    db1 = { db with leadRaw := db.leadRaw ++ [row] } := by
  unfold rawCreate at h
  cases fault with
  | some e => exact absurd h (by simp)
  | none =>
    by_cases h1 : db.leadRaw.any (fun r => r.id = row.id)
    · simp [h1] at h
    · by_cases h2 : row.idempotencyKey.isSome &&
          db.leadRaw.any (fun r => r.idempotencyKey = row.idempotencyKey)
      · simp [h1, h2] at h
      · simp [h1, h2] at h
        exact h.symm

theorem leadCreate_ok_iff {fault : Option StoreError} {db : Db} {row : LeadRow}
    {db1 : Db} (h : leadCreate fault db row = .ok db1) :
    db1 = { db with leads := db.leads ++ [row] } := by
  unfold leadCreate at h
  cases fault with
  | some e => exact absurd h (by simp)
  | none =>
    by_cases h1 : db.leads.any (fun r => r.id = row.id)
    · simp [h1] at h
    · by_cases h2 : row.idempotencyKey.isSome &&
          db.leads.any (fun r => r.idempotencyKey = row.idempotencyKey)
      · simp [h1, h2] at h
      · simp [h1, h2] at h
        exact h.symm

theorem ingestLead_reaches_normalize {faults : Faults} {leadId : String}
    {opts : IngestLeadOptions} {db db1 : Db}
    (h : dbAfterRawStep faults leadId opts db = some db1) :
    (ingestLead faults leadId opts db).outcome =
        (normalizeStep faults leadId opts db1).outcome ∧
    (ingestLead faults leadId opts db).db = (normalizeStep faults leadId opts db1).db ∧
    (ingestLead faults leadId opts db).ops =
        .rawCreate (rawRowOf leadId opts) :: (normalizeStep faults leadId opts db1).ops ∧
    ((ingestLead faults leadId opts db).logs =
        [.info "Starting lead ingestion", .info "Raw lead stored successfully"]
          ++ (normalizeStep faults leadId opts db1).logs ∨
     (ingestLead faults leadId opts db).logs =
        [.info "Starting lead ingestion",
         .info "Raw lead already exists (idempotency key conflict), continuing with normalized storage"]
          ++ (normalizeStep faults leadId opts db1).logs) := by
  unfold dbAfterRawStep at h
  cases hR : rawCreate faults.raw db (rawRowOf leadId opts) with
  | ok d =>
    rw [hR] at h
    simp only [Option.some.injEq] at h
    subst h
    simp [ingestLead, hR]
  | error e =>
    rw [hR] at h
    by_cases hc : isIdempotencyKeyConstraintError e = true
    · simp only [hc, if_true, Option.some.injEq] at h
      subst h
      simp [ingestLead, hR, hc]
    · simp only [Bool.not_eq_true] at hc
      simp [hc] at h

theorem contains_or_any_eq (a : String) (p : String → Bool) (ha : p a = true)
    (l : List String) : (l.contains a || l.any p) = l.any p := by
  cases hc : l.contains a with
  | false => simp
  | true =>
    have hm : a ∈ l := by
      have := hc
      simp only [List.contains, List.elem_eq_mem, decide_eq_true_eq] at this
      exact this
    have hany : l.any p = true := List.any_eq_true.mpr ⟨a, hm, ha⟩
    simp [hany]

/-- C4: the source classifier `isIdempotencyKeyConstraintError` accepts
exactly the P2002 errors with some violated field whose lowercased name
contains the substring `idempotency`; this is strictly broader than the
spec's two naming variants. -/
theorem C4_amended_classifier (error : StoreError) :
    isIdempotencyKeyConstraintError error =
      (isPrismaUniqueConstraintError error &&
        (targetOf error).any (fun field => jsIncludes (jsToLower field) "idempotency")) := by
  cases error with
  | unknown msg => rfl
  | known e =>
    by_cases hc : e.code = "P2002"
    · have h1 : jsIncludes (jsToLower "idempotencyKey") "idempotency" = true := by decide
      have h2 : jsIncludes (jsToLower "idempotency_key") "idempotency" = true := by decide
      simp only [isIdempotencyKeyConstraintError, isPrismaUniqueConstraintError, targetOf, hc,
        decide_True, Bool.not_true, Bool.false_eq_true, if_false, Bool.true_and]
      rw [Bool.or_assoc,
          contains_or_any_eq "idempotency_key"
            (fun field => jsIncludes (jsToLower field) "idempotency") h2,
          contains_or_any_eq "idempotencyKey"
            (fun field => jsIncludes (jsToLower field) "idempotency") h1]
    · simp [isIdempotencyKeyConstraintError, isPrismaUniqueConstraintError, hc]

/-- C4, counterexample to the claim as stated: a P2002 violation on the field
`customer_idempotency_token` — which is neither `idempotencyKey` nor
`idempotency_key` under any casing — is classified by the source as an
idempotency-key constraint error, while the spec's variant-based test
rejects it. -/
theorem C4_counterexample :
    isIdempotencyKeyConstraintError
        (.known ⟨"P2002", some ["customer_idempotency_token"]⟩) = true ∧
    specIsIdempotencyKeyError
        (.known ⟨"P2002", some ["customer_idempotency_token"]⟩) = false := by
  constructor
  · decide
  · decide

theorem normalizeStep_ops_eq (faults : Faults) (leadId : String)
    (opts : IngestLeadOptions) (db : Db) :
    (normalizeStep faults leadId opts db).ops = [.leadCreate (leadRowOf leadId opts)] ∨
    (normalizeStep faults leadId opts db).ops =
      [.leadCreate (leadRowOf leadId opts), .findFirst (orNull opts.idempotencyKey)] := by
  unfold normalizeStep
  cases hL : leadCreate faults.lead db (leadRowOf leadId opts) with
  | ok db2 => simp [hL]
  | error e =>
    by_cases hc : isIdempotencyKeyConstraintError e = true
    · cases hF : findFirst faults.lookup db (orNull opts.idempotencyKey) with
      | ok r =>
        cases r with
        | none => simp [hL, hc, hF]
        | some existingLead => simp [hL, hc, hF]
      | error e2 => simp [hL, hc, hF]
    · simp only [Bool.not_eq_true] at hc
      simp [hL, hc]

theorem normalizeStep_countP_raw (faults : Faults) (leadId : String)
    (opts : IngestLeadOptions) (db : Db) :
    (normalizeStep faults leadId opts db).ops.countP isRawCreateOp = 0 := by
  rcases normalizeStep_ops_eq faults leadId opts db with h | h <;>
    simp [h, List.countP_cons, isRawCreateOp]

/-- C2: when the raw-capture insert fails with an idempotency-key uniqueness
violation, the call neither errors out nor retries the raw insert: its
result is exactly that of the normalization step run on the unchanged
state, the operation trace is the single raw insert followed immediately by
the normalization insert, and no raw-storage error is logged. -/
theorem C2_benign_raw_conflict_continues (faults : Faults) (leadId : String)
    (opts : IngestLeadOptions) (db : Db) (e : StoreError)
    (hR : rawCreate faults.raw db (rawRowOf leadId opts) = .error e)
    (hI : isIdempotencyKeyConstraintError e = true) :
    (ingestLead faults leadId opts db).outcome =
        (normalizeStep faults leadId opts db).outcome ∧
    (ingestLead faults leadId opts db).db = (normalizeStep faults leadId opts db).db ∧
    (∃ tail, (ingestLead faults leadId opts db).ops =
        .rawCreate (rawRowOf leadId opts) :: .leadCreate (leadRowOf leadId opts) :: tail) ∧
    (ingestLead faults leadId opts db).ops.countP isRawCreateOp = 1 ∧
    (ingestLead faults leadId opts db).logs =
      [.info "Starting lead ingestion",
       .info "Raw lead already exists (idempotency key conflict), continuing with normalized storage"]
        ++ (normalizeStep faults leadId opts db).logs := by
  have hops := normalizeStep_ops_eq faults leadId opts db
  have hcount := normalizeStep_countP_raw faults leadId opts db
  have hrun : (ingestLead faults leadId opts db).ops =
      .rawCreate (rawRowOf leadId opts) :: (normalizeStep faults leadId opts db).ops := by
    simp [ingestLead, hR, hI]
  refine ⟨?_, ?_, ?_, ?_, ?_⟩
  · simp [ingestLead, hR, hI]
  · simp [ingestLead, hR, hI]
  · rcases hops with h | h
    · exact ⟨[], by rw [hrun, h]⟩
    · exact ⟨[.findFirst (orNull opts.idempotencyKey)], by rw [hrun, h]⟩
  · rw [hrun, List.countP_cons]
    simp [isRawCreateOp, hcount]
  · simp [ingestLead, hR, hI]

/-- C3: when the raw-capture insert fails with anything other than an
idempotency-key uniqueness violation, the call logs full context including
the original payload, returns failure, attempts no other store operation
(in particular no normalization insert), and leaves both tables unchanged. -/
theorem C3_raw_failure_fatal (faults : Faults) (leadId : String)
    (opts : IngestLeadOptions) (db : Db) (e : StoreError)
    (hR : rawCreate faults.raw db (rawRowOf leadId opts) = .error e)
    (hI : isIdempotencyKeyConstraintError e = false) :
    (ingestLead faults leadId opts db).outcome = .failure e ∧
    (ingestLead faults leadId opts db).db = db ∧
    (ingestLead faults leadId opts db).logs =
      [.info "Starting lead ingestion",
       .errorDetail "raw_storage" e leadId opts.idempotencyKey opts.xRequestId opts.payload] ∧
    (ingestLead faults leadId opts db).ops = [.rawCreate (rawRowOf leadId opts)] ∧
    (ingestLead faults leadId opts db).ops.countP isLeadCreateOp = 0 := by
  simp [ingestLead, hR, hI, List.countP_cons, isLeadCreateOp]

theorem not_unique_not_idempotency {e : StoreError}
    (h : isPrismaUniqueConstraintError e = false) :
    isIdempotencyKeyConstraintError e = false := by
  cases e with
  | unknown msg => rfl
  | known ke => simp [isIdempotencyKeyConstraintError, h]

theorem rawCreate_ok_of_fresh {db : Db} {row : LeadRawRow}
    (hid : ∀ r ∈ db.leadRaw, r.id ≠ row.id)
    (hkey : ∀ r ∈ db.leadRaw, r.idempotencyKey ≠ row.idempotencyKey) :
    rawCreate Option.none db row = .ok ⟨db.leadRaw ++ [row], db.leads⟩ := by
  have h1 : db.leadRaw.any (fun r => r.id = row.id) = false :=
    List.any_eq_false.mpr (fun r hr => by simp [hid r hr])
  have h2 : db.leadRaw.any (fun r => r.idempotencyKey = row.idempotencyKey) = false :=
    List.any_eq_false.mpr (fun r hr => by simp [hkey r hr])
  simp [rawCreate, h1, h2]

theorem rawCreate_ok_of_null_key {db : Db} {row : LeadRawRow}
    (hid : ∀ r ∈ db.leadRaw, r.id ≠ row.id) (hnull : row.idempotencyKey = none) :
    rawCreate Option.none db row = .ok ⟨db.leadRaw ++ [row], db.leads⟩ := by
  have h1 : db.leadRaw.any (fun r => r.id = row.id) = false :=
    List.any_eq_false.mpr (fun r hr => by simp [hid r hr])
  simp [rawCreate, h1, hnull]

theorem rawCreate_key_conflict {db : Db} {row : LeadRawRow}
    (hid : ∀ r ∈ db.leadRaw, r.id ≠ row.id) (hsome : row.idempotencyKey.isSome = true)
    (hex : ∃ r ∈ db.leadRaw, r.idempotencyKey = row.idempotencyKey) :
    rawCreate Option.none db row = .error (.known ⟨"P2002", some ["idempotency_key"]⟩) := by
  have h1 : db.leadRaw.any (fun r => r.id = row.id) = false :=
    List.any_eq_false.mpr (fun r hr => by simp [hid r hr])
  obtain ⟨r, hr, he⟩ := hex
  have h2 : db.leadRaw.any (fun r => r.idempotencyKey = row.idempotencyKey) = true :=
    List.any_eq_true.mpr ⟨r, hr, by simp [he]⟩
  simp [rawCreate, h1, h2, hsome]

theorem leadCreate_ok_of_fresh {db : Db} {row : LeadRow}
    (hid : ∀ r ∈ db.leads, r.id ≠ row.id)
    (hkey : ∀ r ∈ db.leads, r.idempotencyKey ≠ row.idempotencyKey) :
    leadCreate Option.none db row = .ok ⟨db.leadRaw, db.leads ++ [row]⟩ := by
  have h1 : db.leads.any (fun r => r.id = row.id) = false :=
    List.any_eq_false.mpr (fun r hr => by simp [hid r hr])
  have h2 : db.leads.any (fun r => r.idempotencyKey = row.idempotencyKey) = false :=
    List.any_eq_false.mpr (fun r hr => by simp [hkey r hr])
  simp [leadCreate, h1, h2]

theorem leadCreate_ok_of_null_key {db : Db} {row : LeadRow}
    (hid : ∀ r ∈ db.leads, r.id ≠ row.id) (hnull : row.idempotencyKey = none) :
    leadCreate Option.none db row = .ok ⟨db.leadRaw, db.leads ++ [row]⟩ := by
  have h1 : db.leads.any (fun r => r.id = row.id) = false :=
    List.any_eq_false.mpr (fun r hr => by simp [hid r hr])
  simp [leadCreate, h1, hnull]

theorem leadCreate_key_conflict {db : Db} {row : LeadRow}
    (hid : ∀ r ∈ db.leads, r.id ≠ row.id) (hsome : row.idempotencyKey.isSome = true)
    (hex : ∃ r ∈ db.leads, r.idempotencyKey = row.idempotencyKey) :
    leadCreate Option.none db row = .error (.known ⟨"P2002", some ["idempotencyKey"]⟩) := by
  have h1 : db.leads.any (fun r => r.id = row.id) = false :=
    List.any_eq_false.mpr (fun r hr => by simp [hid r hr])
  obtain ⟨r, hr, he⟩ := hex
  have h2 : db.leads.any (fun r => r.idempotencyKey = row.idempotencyKey) = true :=
    List.any_eq_true.mpr ⟨r, hr, by simp [he]⟩
  simp [leadCreate, h1, h2, hsome]

/-- C5: when the raw insert has succeeded and the normalization insert then
fails for a non-constraint reason, the call returns failure but the raw row
written in step 1 is still in the store: the failure path deletes nothing. -/
theorem C5_raw_persists_on_normalize_failure (faults : Faults) (leadId : String)
    (opts : IngestLeadOptions) (db db1 : Db) (e : StoreError)
    (hR : rawCreate faults.raw db (rawRowOf leadId opts) = .ok db1)
    (hL : faults.lead = some e)
    (hU : isPrismaUniqueConstraintError e = false) :
    (ingestLead faults leadId opts db).outcome = .failure e ∧
    (ingestLead faults leadId opts db).db.leadRaw = db.leadRaw ++ [rawRowOf leadId opts] ∧
    rawRowOf leadId opts ∈ (ingestLead faults leadId opts db).db.leadRaw := by
  have hI : isIdempotencyKeyConstraintError e = false := not_unique_not_idempotency hU
  have hdb1 : db1 = { db with leadRaw := db.leadRaw ++ [rawRowOf leadId opts] } :=
    rawCreate_ok_iff hR
  have hlc : leadCreate faults.lead db1 (leadRowOf leadId opts) = .error e := by
    simp [leadCreate, hL]
  have hrun : (ingestLead faults leadId opts db).outcome = .failure e ∧
      (ingestLead faults leadId opts db).db = db1 := by
    simp [ingestLead, hR, normalizeStep, hlc, hI]
  refine ⟨hrun.1, ?_, ?_⟩
  · rw [hrun.2, hdb1]
  · rw [hrun.2, hdb1]
    simp

/-- C6: when the normalization insert fails with an idempotency-key
constraint violation but the lookup by idempotency key finds no existing
lead, the call logs at error severity and returns failure immediately,
with exactly one normalization insert and exactly one lookup (no retry). -/
theorem C6_lookup_miss_fatal (faults : Faults) (leadId : String)
    (opts : IngestLeadOptions) (db db1 : Db) (e : StoreError)
    (hRaw : dbAfterRawStep faults leadId opts db = some db1)
    (hLf : faults.lead = some e)
    (hIe : isIdempotencyKeyConstraintError e = true)
    (hFind : findFirst faults.lookup db1 (orNull opts.idempotencyKey) = .ok none) :
    (ingestLead faults leadId opts db).outcome = .failure e ∧
    .errorLog "Idempotency key conflict but existing lead not found"
      ∈ (ingestLead faults leadId opts db).logs ∧
    (ingestLead faults leadId opts db).ops =
      [.rawCreate (rawRowOf leadId opts), .leadCreate (leadRowOf leadId opts),
       .findFirst (orNull opts.idempotencyKey)] ∧
    (ingestLead faults leadId opts db).ops.countP isFindFirstOp = 1 ∧
    (ingestLead faults leadId opts db).ops.countP isLeadCreateOp = 1 := by
  obtain ⟨ho, hd, hops, hlogs⟩ := ingestLead_reaches_normalize hRaw
  have hlc : leadCreate faults.lead db1 (leadRowOf leadId opts) = .error e := by
    simp [leadCreate, hLf]
  have hns : normalizeStep faults leadId opts db1 =
      { outcome := .failure e
        db := db1
        logs := [.info "Lead deduplicated (idempotency key match)",
                 .errorLog "Idempotency key conflict but existing lead not found"]
        ops := [.leadCreate (leadRowOf leadId opts),
                .findFirst (orNull opts.idempotencyKey)] } := by
    simp [normalizeStep, hlc, hIe, hFind]
  refine ⟨?_, ?_, ?_, ?_, ?_⟩
  · rw [ho, hns]
  · rcases hlogs with h | h <;> rw [h, hns] <;> simp
  · rw [hops, hns]
  · rw [hops, hns]
    simp [List.countP_cons, isFindFirstOp]
  · rw [hops, hns]
    simp [List.countP_cons, isLeadCreateOp]

/-- C10: when the normalization insert fails with an error classified as an
idempotency-key violation while the client key is null or the empty string,
the lookup runs with the where-condition dropped entirely (`whereKey` is
`none`, the Prisma `undefined` filter), so it returns the first row of the
`leads` table, and that unrelated row's identifier is returned to the
caller with `deduplicated = true`. -/
theorem C10_null_key_lookup_unfiltered (faults : Faults) (leadId : String)
    (opts : IngestLeadOptions) (db db1 : Db) (e : StoreError) (r0 : LeadRow)
    (rest : List LeadRow)
    (hk : opts.idempotencyKey = none ∨ opts.idempotencyKey = some "")
    (hRaw : dbAfterRawStep faults leadId opts db = some db1)
    (hLf : faults.lead = some e)
    (hIe : isIdempotencyKeyConstraintError e = true)
    (hlook : faults.lookup = none)
    (hleads : db1.leads = r0 :: rest) :
    (ingestLead faults leadId opts db).outcome = .success ⟨true, r0.id, true⟩ ∧
    .findFirst none ∈ (ingestLead faults leadId opts db).ops ∧
    (ingestLead faults leadId opts db).ops =
      [.rawCreate (rawRowOf leadId opts), .leadCreate (leadRowOf leadId opts),
       .findFirst none] := by
  obtain ⟨ho, hd, hops, hlogs⟩ := ingestLead_reaches_normalize hRaw
  have hwhere : orNull opts.idempotencyKey = none := by
    rcases hk with h | h <;> simp [orNull, h]
  have hlc : leadCreate faults.lead db1 (leadRowOf leadId opts) = .error e := by
    simp [leadCreate, hLf]
  have hFind : findFirst faults.lookup db1 (orNull opts.idempotencyKey) =
      .ok (some r0) := by
    simp [findFirst, hlook, hwhere, hleads]
  have hns : normalizeStep faults leadId opts db1 =
      { outcome := .success ⟨true, r0.id, true⟩
        db := db1
        logs := [.info "Lead deduplicated (idempotency key match)"]
        ops := [.leadCreate (leadRowOf leadId opts),
                .findFirst (orNull opts.idempotencyKey)] } := by
    simp [normalizeStep, hlc, hIe, hFind]
  refine ⟨?_, ?_, ?_⟩
  · rw [ho, hns]
  · rw [hops, hns]
    simp [hwhere]
  · rw [hops, hns]
    simp [hwhere]

theorem ingestLead_ops_shape (faults : Faults) (leadId : String)
    (opts : IngestLeadOptions) (db : Db) :
    (ingestLead faults leadId opts db).ops = [.rawCreate (rawRowOf leadId opts)] ∨
    ∃ db1, dbAfterRawStep faults leadId opts db = some db1 ∧
      (ingestLead faults leadId opts db).ops =
        .rawCreate (rawRowOf leadId opts) :: (normalizeStep faults leadId opts db1).ops := by
  cases hR : rawCreate faults.raw db (rawRowOf leadId opts) with
  | ok d =>
    right
    exact ⟨d, by simp [dbAfterRawStep, hR], by simp [ingestLead, hR]⟩
  | error e =>
    by_cases hc : isIdempotencyKeyConstraintError e = true
    · right
      exact ⟨db, by simp [dbAfterRawStep, hR, hc], by simp [ingestLead, hR, hc]⟩
    · left
      simp only [Bool.not_eq_true] at hc
      simp [ingestLead, hR, hc]

/-- C7, amended: every normalized-lead insert attempted by `ingestLead`
uses the same generated identifier as the raw-capture row, the fixed
initial status `new`, the idempotency key and correlation id coerced
exactly as in the raw row, and a field-by-field projection of the payload
where each field is the payload's value passed through JavaScript
`|| null` — kept when present and non-empty, an explicit null when absent
or the empty string. -/
theorem C7_inserted_row_shape (faults : Faults) (leadId : String)
    (opts : IngestLeadOptions) (db : Db) (n : LeadRow)
    (h : .leadCreate n ∈ (ingestLead faults leadId opts db).ops) :
    n.id = leadId ∧ n.id = (rawRowOf leadId opts).id ∧ n.status = "new" ∧
    n.idempotencyKey = (rawRowOf leadId opts).idempotencyKey ∧
    n.xRequestId = (rawRowOf leadId opts).xRequestId ∧
    n.clickId = orNull opts.payload.click_id ∧
    n.country = orNull opts.payload.country ∧
    n.creo = orNull opts.payload.creo ∧
    n.description = orNull opts.payload.description ∧
    n.domain = orNull opts.payload.domain ∧
    n.email = orNull opts.payload.email ∧
    n.firstName = orNull opts.payload.firstName ∧
    n.lastName = orNull opts.payload.lastName ∧
    n.ip = orNull opts.payload.ip ∧
    n.lang = orNull opts.payload.lang ∧
    n.marker = orNull opts.payload.marker ∧
    n.offer = orNull opts.payload.offer ∧
    n.phone = orNull opts.payload.phone ∧
    n.sourcetype = orNull opts.payload.sourcetype := by
  have hn : n = leadRowOf leadId opts := by
    rcases ingestLead_ops_shape faults leadId opts db with hs | ⟨db1, _, hs⟩
    · rw [hs] at h
      simp at h
    · rw [hs] at h
      rcases List.mem_cons.mp h with h1 | h2
      · exact absurd h1 (by simp)
      · rcases normalizeStep_ops_eq faults leadId opts db1 with ho | ho <;>
          rw [ho] at h2 <;> simpa using h2
  subst hn
  refine ⟨rfl, rfl, rfl, rfl, rfl, rfl, rfl, rfl, rfl, rfl, rfl, rfl, rfl, rfl,
    rfl, rfl, rfl, rfl, rfl⟩

/-- C8, amended: a failure from either insert that is not an
idempotency-key constraint violation makes `ingestLead` return a failure
result and log full diagnostic context including the original payload; a
failure from the existing-lead lookup, however, escapes `ingestLead` as an
uncaught exception and nothing is logged through the full-context error
logger. -/
theorem C8_insert_failures_fatal_lookup_throws (faults : Faults) (leadId : String)
    (opts : IngestLeadOptions) (db : Db) :
    (∀ e, rawCreate faults.raw db (rawRowOf leadId opts) = .error e →
      isIdempotencyKeyConstraintError e = false →
      (ingestLead faults leadId opts db).outcome = .failure e ∧
      .errorDetail "raw_storage" e leadId opts.idempotencyKey opts.xRequestId opts.payload
        ∈ (ingestLead faults leadId opts db).logs) ∧
    (∀ db1 e, dbAfterRawStep faults leadId opts db = some db1 →
      leadCreate faults.lead db1 (leadRowOf leadId opts) = .error e →
      isIdempotencyKeyConstraintError e = false →
      (ingestLead faults leadId opts db).outcome = .failure e ∧
      .errorDetail "normalized_storage" e leadId opts.idempotencyKey opts.xRequestId opts.payload
        ∈ (ingestLead faults leadId opts db).logs) ∧
    (∀ db1 e e2, dbAfterRawStep faults leadId opts db = some db1 →
      leadCreate faults.lead db1 (leadRowOf leadId opts) = .error e →
      isIdempotencyKeyConstraintError e = true →
      findFirst faults.lookup db1 (orNull opts.idempotencyKey) = .error e2 →
      (ingestLead faults leadId opts db).outcome = .thrown e2 ∧
      ∀ entry ∈ (ingestLead faults leadId opts db).logs, isErrorDetailEntry entry = false) := by
  refine ⟨?_, ?_, ?_⟩
  · intro e hR hI
    constructor
    · simp [ingestLead, hR, hI]
    · simp [ingestLead, hR, hI]
  · intro db1 e hRaw hlc hI
    obtain ⟨ho, hd, hops, hlogs⟩ := ingestLead_reaches_normalize hRaw
    have hns : normalizeStep faults leadId opts db1 =
        { outcome := .failure e
          db := db1
          logs := [.errorDetail "normalized_storage" e leadId
                     opts.idempotencyKey opts.xRequestId opts.payload]
          ops := [.leadCreate (leadRowOf leadId opts)] } := by
      simp [normalizeStep, hlc, hI]
    refine ⟨by rw [ho, hns], ?_⟩
    rcases hlogs with h | h <;> rw [h, hns] <;> simp
  · intro db1 e e2 hRaw hlc hI hFind
    obtain ⟨ho, hd, hops, hlogs⟩ := ingestLead_reaches_normalize hRaw
    have hns : normalizeStep faults leadId opts db1 =
        { outcome := .thrown e2
          db := db1
          logs := [.info "Lead deduplicated (idempotency key match)"]
          ops := [.leadCreate (leadRowOf leadId opts),
                  .findFirst (orNull opts.idempotencyKey)] } := by
      simp [normalizeStep, hlc, hI, hFind]
    refine ⟨by rw [ho, hns], ?_⟩
    intro entry hentry
    rcases hlogs with h | h <;> rw [h, hns] at hentry <;> simp at hentry <;>
      rcases hentry with h1 | h1 | h1 <;> rw [h1] <;> rfl

/-- C1, amended: for two sequential calls sharing the same non-null,
non-empty idempotency key (fresh generated ids, key not yet present), the
first call succeeds with `deduplicated = false`, the second call returns
the first call's identifier with `deduplicated = true`, and exactly one
normalized lead row with that key exists afterwards. -/
theorem C1_sequential_dedup (db : Db) (opts : IngestLeadOptions) (k id1 id2 : String)
    (hk : opts.idempotencyKey = some k) (hne : k ≠ "")
    (hrawk : ∀ r ∈ db.leadRaw, r.idempotencyKey ≠ some k)
    (hleadk : ∀ r ∈ db.leads, r.idempotencyKey ≠ some k)
    (h1r : ∀ r ∈ db.leadRaw, r.id ≠ id1) (h1l : ∀ r ∈ db.leads, r.id ≠ id1)
    (h2r : ∀ r ∈ db.leadRaw, r.id ≠ id2) (h2l : ∀ r ∈ db.leads, r.id ≠ id2)
    (h12 : id1 ≠ id2) :
    (ingestLead Faults.none id1 opts db).outcome = .success ⟨true, id1, false⟩ ∧
    (ingestLead Faults.none id2 opts (ingestLead Faults.none id1 opts db).db).outcome =
      .success ⟨true, id1, true⟩ ∧
    ((ingestLead Faults.none id2 opts
        (ingestLead Faults.none id1 opts db).db).db.leads.countP
          (fun r => r.idempotencyKey = some k)) = 1 := by
  have hkey : orNull opts.idempotencyKey = some k := by simp [orNull, hk, hne]
  have hraw1key : (rawRowOf id1 opts).idempotencyKey = some k := by simp [rawRowOf, hkey]
  have hraw2key : (rawRowOf id2 opts).idempotencyKey = some k := by simp [rawRowOf, hkey]
  have hlead1key : (leadRowOf id1 opts).idempotencyKey = some k := by simp [leadRowOf, hkey]
  have hlead2key : (leadRowOf id2 opts).idempotencyKey = some k := by simp [leadRowOf, hkey]
  have hR1 : rawCreate Option.none db (rawRowOf id1 opts) =
      .ok ⟨db.leadRaw ++ [rawRowOf id1 opts], db.leads⟩ :=
    rawCreate_ok_of_fresh
      (fun r hr => by simpa [rawRowOf] using h1r r hr)
      (fun r hr => by rw [hraw1key]; exact hrawk r hr)
  have hL1 : leadCreate Option.none
      (⟨db.leadRaw ++ [rawRowOf id1 opts], db.leads⟩ : Db) (leadRowOf id1 opts) =
      .ok ⟨db.leadRaw ++ [rawRowOf id1 opts], db.leads ++ [leadRowOf id1 opts]⟩ :=
    leadCreate_ok_of_fresh
      (fun r hr => by simpa [leadRowOf] using h1l r hr)
      (fun r hr => by rw [hlead1key]; exact hleadk r hr)
  have ho1 : (ingestLead Faults.none id1 opts db).outcome =
      .success ⟨true, id1, false⟩ := by
    simp [ingestLead, normalizeStep, Faults.none, hR1, hL1]
  have hd1 : (ingestLead Faults.none id1 opts db).db =
      ⟨db.leadRaw ++ [rawRowOf id1 opts], db.leads ++ [leadRowOf id1 opts]⟩ := by
    simp [ingestLead, normalizeStep, Faults.none, hR1, hL1]
  have hR2 : rawCreate Option.none
      (⟨db.leadRaw ++ [rawRowOf id1 opts], db.leads ++ [leadRowOf id1 opts]⟩ : Db)
      (rawRowOf id2 opts) =
      .error (.known ⟨"P2002", some ["idempotency_key"]⟩) := by
    apply rawCreate_key_conflict
    · intro r hr
      rcases List.mem_append.mp hr with h | h
      · simpa [rawRowOf] using h2r r h
      · simp at h
        subst h
        simpa [rawRowOf] using h12
    · rw [hraw2key]; rfl
    · exact ⟨rawRowOf id1 opts, List.mem_append.mpr (Or.inr (by simp)),
        by rw [hraw1key, hraw2key]⟩
  have hIraw : isIdempotencyKeyConstraintError
      (.known ⟨"P2002", some ["idempotency_key"]⟩) = true := by decide
  have hL2 : leadCreate Option.none
      (⟨db.leadRaw ++ [rawRowOf id1 opts], db.leads ++ [leadRowOf id1 opts]⟩ : Db)
      (leadRowOf id2 opts) =
      .error (.known ⟨"P2002", some ["idempotencyKey"]⟩) := by
    apply leadCreate_key_conflict
    · intro r hr
      rcases List.mem_append.mp hr with h | h
      · simpa [leadRowOf] using h2l r h
      · simp at h
        subst h
        simpa [leadRowOf] using h12
    · rw [hlead2key]; rfl
    · exact ⟨leadRowOf id1 opts, List.mem_append.mpr (Or.inr (by simp)),
        by rw [hlead1key, hlead2key]⟩
  have hIlead : isIdempotencyKeyConstraintError
      (.known ⟨"P2002", some ["idempotencyKey"]⟩) = true := by decide
  have hfnone : (db.leads.find? (fun r => r.idempotencyKey = some k)) = none :=
    List.find?_eq_none.mpr (fun x hx => by simp [hleadk x hx])
  have hF2 : findFirst Option.none
      (⟨db.leadRaw ++ [rawRowOf id1 opts], db.leads ++ [leadRowOf id1 opts]⟩ : Db)
      (orNull opts.idempotencyKey) = .ok (some (leadRowOf id1 opts)) := by
    rw [hkey]
    simp only [findFirst]
    rw [List.find?_append, hfnone]
    simp [hlead1key]
  have h0 : db.leads.countP (fun r => decide (r.idempotencyKey = some k)) = 0 :=
    List.countP_eq_zero.mpr (fun a ha => by simp [hleadk a ha])
  refine ⟨ho1, ?_, ?_⟩
  · rw [hd1]
    have hid1 : (leadRowOf id1 opts).id = id1 := rfl
    simp [ingestLead, normalizeStep, Faults.none, hR2, hIraw, hL2, hIlead, hF2, hid1]
  · rw [hd1]
    have hd2 : (ingestLead Faults.none id2 opts
        (⟨db.leadRaw ++ [rawRowOf id1 opts], db.leads ++ [leadRowOf id1 opts]⟩ : Db)).db =
        ⟨db.leadRaw ++ [rawRowOf id1 opts], db.leads ++ [leadRowOf id1 opts]⟩ := by
      simp [ingestLead, normalizeStep, Faults.none, hR2, hIraw, hL2, hIlead, hF2]
    rw [hd2]
    simp [List.countP_append, h0, List.countP_cons, hlead1key]

theorem normalizeStep_proj_congr (faults : Faults) (leadId : String)
    (o1 o2 : IngestLeadOptions) (db : Db)
    (hlead : leadRowOf leadId o1 = leadRowOf leadId o2)
    (hwhere : orNull o1.idempotencyKey = orNull o2.idempotencyKey) :
    (normalizeStep faults leadId o1 db).outcome =
      (normalizeStep faults leadId o2 db).outcome ∧
    (normalizeStep faults leadId o1 db).db = (normalizeStep faults leadId o2 db).db ∧
    (normalizeStep faults leadId o1 db).ops = (normalizeStep faults leadId o2 db).ops := by
  simp only [normalizeStep]
  rw [hlead, hwhere]
  cases hL : leadCreate faults.lead db (leadRowOf leadId o2) with
  | ok db2 => simp
  | error e =>
    by_cases hc : isIdempotencyKeyConstraintError e = true
    · cases hF : findFirst faults.lookup db (orNull o2.idempotencyKey) with
      | ok r =>
        cases r with
        | none => simp [hc, hF]
        | some x => simp [hc, hF]
      | error e2 => simp [hc, hF]
    · simp only [Bool.not_eq_true] at hc
      simp [hc]

theorem ingestLead_proj_congr (faults : Faults) (leadId : String)
    (o1 o2 : IngestLeadOptions) (db : Db)
    (hraw : rawRowOf leadId o1 = rawRowOf leadId o2)
    (hlead : leadRowOf leadId o1 = leadRowOf leadId o2)
    (hwhere : orNull o1.idempotencyKey = orNull o2.idempotencyKey) :
    (ingestLead faults leadId o1 db).outcome = (ingestLead faults leadId o2 db).outcome ∧
    (ingestLead faults leadId o1 db).db = (ingestLead faults leadId o2 db).db ∧
    (ingestLead faults leadId o1 db).ops = (ingestLead faults leadId o2 db).ops := by
  simp only [ingestLead]
  rw [hraw]
  cases hR : rawCreate faults.raw db (rawRowOf leadId o2) with
  | ok d =>
    have h := normalizeStep_proj_congr faults leadId o1 o2 d hlead hwhere
    simp [h.1, h.2.1, h.2.2]
  | error e =>
    by_cases hc : isIdempotencyKeyConstraintError e = true
    · have h := normalizeStep_proj_congr faults leadId o1 o2 db hlead hwhere
      simp [hc, h.1, h.2.1, h.2.2]
    · simp only [Bool.not_eq_true] at hc
      simp [hc]

/-- C9: an empty-string idempotency key is coerced to null by `|| null`, so
the call behaves exactly like a call with an absent key in outcome, stored
state and operations; both rows are stored with a null key, the null key is
exempt from uniqueness enforcement (the call succeeds no matter how many
null-key rows exist), deduplication is never triggered, and the call
returns `deduplicated = false` with the fresh identifier. -/
theorem C9_empty_key_like_absent (faults : Faults) (leadId : String)
    (opts : IngestLeadOptions) (db : Db) (hk : opts.idempotencyKey = some "") :
    ((ingestLead faults leadId opts db).outcome =
        (ingestLead faults leadId { opts with idempotencyKey := none } db).outcome ∧
     (ingestLead faults leadId opts db).db =
        (ingestLead faults leadId { opts with idempotencyKey := none } db).db ∧
     (ingestLead faults leadId opts db).ops =
        (ingestLead faults leadId { opts with idempotencyKey := none } db).ops) ∧
    (faults = Faults.none → (∀ r ∈ db.leadRaw, r.id ≠ leadId) →
      (∀ r ∈ db.leads, r.id ≠ leadId) →
      (ingestLead faults leadId opts db).outcome = .success ⟨true, leadId, false⟩ ∧
      (ingestLead faults leadId opts db).db.leadRaw = db.leadRaw ++ [rawRowOf leadId opts] ∧
      (ingestLead faults leadId opts db).db.leads = db.leads ++ [leadRowOf leadId opts] ∧
      (rawRowOf leadId opts).idempotencyKey = none ∧
      (leadRowOf leadId opts).idempotencyKey = none) := by
  constructor
  · exact ingestLead_proj_congr faults leadId opts
      { opts with idempotencyKey := none } db
      (by simp [rawRowOf, orNull, hk]) (by simp [leadRowOf, orNull, hk])
      (by simp [orNull, hk])
  · intro hf hidr hidl
    subst hf
    have hnullraw : (rawRowOf leadId opts).idempotencyKey = none := by
      simp [rawRowOf, orNull, hk]
    have hnulllead : (leadRowOf leadId opts).idempotencyKey = none := by
      simp [leadRowOf, orNull, hk]
    have hR : rawCreate Option.none db (rawRowOf leadId opts) =
        .ok ⟨db.leadRaw ++ [rawRowOf leadId opts], db.leads⟩ :=
      rawCreate_ok_of_null_key
        (fun r hr => by simpa [rawRowOf] using hidr r hr) hnullraw
    have hL : leadCreate Option.none
        (⟨db.leadRaw ++ [rawRowOf leadId opts], db.leads⟩ : Db) (leadRowOf leadId opts) =
        .ok ⟨db.leadRaw ++ [rawRowOf leadId opts], db.leads ++ [leadRowOf leadId opts]⟩ :=
      leadCreate_ok_of_null_key
        (fun r hr => by simpa [leadRowOf] using hidl r hr) hnulllead
    refine ⟨?_, ?_, ?_, hnullraw, hnulllead⟩ <;>
      simp [ingestLead, normalizeStep, Faults.none, hR, hL]

/-- C1, counterexample to the claim as stated: the empty string is a
non-null idempotency key, yet two sequential calls with it both succeed
with `deduplicated = false`, return distinct identifiers, and afterwards no
normalized lead row carries that key (both rows were stored with a null
key), contradicting every conclusion of the claim. -/
theorem C1_counterexample :
    (some "" : Option String) ≠ none ∧
    (ingestLead Faults.none "id1" ⟨emptyPayload, some "", none⟩ ⟨[], []⟩).outcome =
      .success ⟨true, "id1", false⟩ ∧
    (ingestLead Faults.none "id2" ⟨emptyPayload, some "", none⟩
        (ingestLead Faults.none "id1" ⟨emptyPayload, some "", none⟩ ⟨[], []⟩).db).outcome =
      .success ⟨true, "id2", false⟩ ∧
    ((ingestLead Faults.none "id2" ⟨emptyPayload, some "", none⟩
        (ingestLead Faults.none "id1" ⟨emptyPayload, some "", none⟩ ⟨[], []⟩).db).db.leads.countP
          (fun r => r.idempotencyKey = some "")) = 0 ∧
    (ingestLead Faults.none "id2" ⟨emptyPayload, some "", none⟩
        (ingestLead Faults.none "id1" ⟨emptyPayload, some "", none⟩ ⟨[], []⟩).db).db.leads.length
      = 2 := by
  refine ⟨by decide, by decide, by decide, by decide, by decide⟩

/-- C1 witness: the amended sequential-deduplication theorem applied to an
empty store, key `k1` and fresh ids `a`, `b`. -/
theorem C1_witness :
    (ingestLead Faults.none "a" ⟨emptyPayload, some "k1", none⟩ ⟨[], []⟩).outcome =
      .success ⟨true, "a", false⟩ ∧
    (ingestLead Faults.none "b" ⟨emptyPayload, some "k1", none⟩
        (ingestLead Faults.none "a" ⟨emptyPayload, some "k1", none⟩ ⟨[], []⟩).db).outcome =
      .success ⟨true, "a", true⟩ ∧
    ((ingestLead Faults.none "b" ⟨emptyPayload, some "k1", none⟩
        (ingestLead Faults.none "a" ⟨emptyPayload, some "k1", none⟩ ⟨[], []⟩).db).db.leads.countP
          (fun r => r.idempotencyKey = some "k1")) = 1 :=
  C1_sequential_dedup ⟨[], []⟩ ⟨emptyPayload, some "k1", none⟩ "k1" "a" "b"
    rfl (by decide) (by simp) (by simp) (by simp) (by simp) (by simp) (by simp) (by decide)

/-- C2 witness: a raw insert hitting the idempotency-key constraint (the
key `k` already captured) continues into the normalization step. -/
theorem C2_witness :
    rawCreate Faults.none.raw (⟨[⟨"old", some "k", none, emptyPayload⟩], []⟩ : Db)
        (rawRowOf "n1" ⟨emptyPayload, some "k", none⟩) =
      .error (.known ⟨"P2002", some ["idempotency_key"]⟩) ∧
    (ingestLead Faults.none "n1" ⟨emptyPayload, some "k", none⟩
        (⟨[⟨"old", some "k", none, emptyPayload⟩], []⟩ : Db)).outcome =
      (normalizeStep Faults.none "n1" ⟨emptyPayload, some "k", none⟩
        (⟨[⟨"old", some "k", none, emptyPayload⟩], []⟩ : Db)).outcome :=
  ⟨rfl,
   (C2_benign_raw_conflict_continues Faults.none "n1" ⟨emptyPayload, some "k", none⟩
      (⟨[⟨"old", some "k", none, emptyPayload⟩], []⟩ : Db)
      (.known ⟨"P2002", some ["idempotency_key"]⟩) rfl (by decide)).1⟩

/-- C3 witness: a connectivity failure of the raw insert makes the call
fail with that error and leave the store untouched. -/
theorem C3_witness :
    rawCreate (⟨some (.unknown "connection reset"), Option.none, Option.none⟩ : Faults).raw
        (⟨[], []⟩ : Db) (rawRowOf "n3" ⟨emptyPayload, some "k", none⟩) =
      .error (.unknown "connection reset") ∧
    (ingestLead ⟨some (.unknown "connection reset"), Option.none, Option.none⟩ "n3"
        ⟨emptyPayload, some "k", none⟩ ⟨[], []⟩).outcome =
      .failure (.unknown "connection reset") :=
  ⟨rfl,
   (C3_raw_failure_fatal ⟨some (.unknown "connection reset"), Option.none, Option.none⟩
      "n3" ⟨emptyPayload, some "k", none⟩ ⟨[], []⟩ (.unknown "connection reset")
      rfl (by decide)).1⟩

/-- C5 witness: raw capture succeeds, normalization fails on an injected
non-constraint error, and the raw row is still stored. -/
theorem C5_witness :
    (ingestLead ⟨Option.none, some (.unknown "disk full"), Option.none⟩ "n5"
        ⟨emptyPayload, some "k", none⟩ ⟨[], []⟩).outcome =
      .failure (.unknown "disk full") ∧
    rawRowOf "n5" ⟨emptyPayload, some "k", none⟩ ∈
      (ingestLead ⟨Option.none, some (.unknown "disk full"), Option.none⟩ "n5"
        ⟨emptyPayload, some "k", none⟩ ⟨[], []⟩).db.leadRaw :=
  ⟨(C5_raw_persists_on_normalize_failure
      ⟨Option.none, some (.unknown "disk full"), Option.none⟩ "n5"
      ⟨emptyPayload, some "k", none⟩ ⟨[], []⟩
      ⟨[⟨"n5", some "k", none, emptyPayload⟩], []⟩ (.unknown "disk full")
      rfl rfl rfl).1,
   (C5_raw_persists_on_normalize_failure
      ⟨Option.none, some (.unknown "disk full"), Option.none⟩ "n5"
      ⟨emptyPayload, some "k", none⟩ ⟨[], []⟩
      ⟨[⟨"n5", some "k", none, emptyPayload⟩], []⟩ (.unknown "disk full")
      rfl rfl rfl).2.2⟩

/-- C6 witness: an injected idempotency-classified normalization failure
over an empty `leads` table (so the lookup finds nothing) returns failure. -/
theorem C6_witness :
    (ingestLead ⟨Option.none, some (.known ⟨"P2002", some ["idempotencyKey"]⟩), Option.none⟩
        "n6" ⟨emptyPayload, some "k", none⟩ ⟨[], []⟩).outcome =
      .failure (.known ⟨"P2002", some ["idempotencyKey"]⟩) ∧
    .errorLog "Idempotency key conflict but existing lead not found" ∈
      (ingestLead ⟨Option.none, some (.known ⟨"P2002", some ["idempotencyKey"]⟩), Option.none⟩
        "n6" ⟨emptyPayload, some "k", none⟩ ⟨[], []⟩).logs :=
  ⟨(C6_lookup_miss_fatal
      ⟨Option.none, some (.known ⟨"P2002", some ["idempotencyKey"]⟩), Option.none⟩
      "n6" ⟨emptyPayload, some "k", none⟩ ⟨[], []⟩
      ⟨[⟨"n6", some "k", none, emptyPayload⟩], []⟩
      (.known ⟨"P2002", some ["idempotencyKey"]⟩) rfl rfl (by decide) rfl).1,
   (C6_lookup_miss_fatal
      ⟨Option.none, some (.known ⟨"P2002", some ["idempotencyKey"]⟩), Option.none⟩
      "n6" ⟨emptyPayload, some "k", none⟩ ⟨[], []⟩
      ⟨[⟨"n6", some "k", none, emptyPayload⟩], []⟩
      (.known ⟨"P2002", some ["idempotencyKey"]⟩) rfl rfl (by decide) rfl).2.1⟩

/-- C7, counterexample to the claim as stated: with a payload whose `email`
field is present with the empty-string value, the one normalization insert
of the run stores `email = null`, not the payload's value — the `|| null`
coercion is truthiness-based, not presence-based. -/
theorem C7_counterexample :
    ((ingestLead Faults.none "id1"
        ⟨{ emptyPayload with email := some "" }, none, none⟩ ⟨[], []⟩).ops.filterMap
          (fun op => match op with | .leadCreate n => some n.email | _ => none)) =
      [none] ∧
    ({ emptyPayload with email := some "" } : CrmLeadPayload).email = some "" ∧
    (none : Option String) ≠ some "" := by
  refine ⟨by decide, rfl, by decide⟩

/-- C7 witness: the amended projection theorem applied to the normalization
insert of a concrete run with an all-null payload. -/
theorem C7_witness :
    (.leadCreate (⟨"id1", none, none, none, none, none, none, none, none, none,
        none, none, none, none, none, none, none, "new"⟩ : LeadRow)) ∈
      (ingestLead Faults.none "id1" ⟨emptyPayload, none, none⟩ ⟨[], []⟩).ops ∧
    (⟨"id1", none, none, none, none, none, none, none, none, none,
        none, none, none, none, none, none, none, "new"⟩ : LeadRow).id = "id1" :=
  ⟨by decide,
   (C7_inserted_row_shape Faults.none "id1" ⟨emptyPayload, none, none⟩ ⟨[], []⟩
      (⟨"id1", none, none, none, none, none, none, none, none, none,
        none, none, none, none, none, none, none, "new"⟩ : LeadRow) (by decide)).1⟩

/-- C8, counterexample to the claim as stated: when the normalization
insert fails with an idempotency-classified error and the follow-up lookup
then fails with a connectivity error, the lookup failure escapes
`ingestLead` as an uncaught exception — the call does not return a failure
result and nothing is logged through the full-context error logger. -/
theorem C8_counterexample :
    (ingestLead ⟨Option.none, some (.known ⟨"P2002", some ["idempotencyKey"]⟩),
        some (.unknown "connection reset")⟩ "id8"
        ⟨emptyPayload, some "k", none⟩ ⟨[], []⟩).outcome =
      .thrown (.unknown "connection reset") ∧
    ((ingestLead ⟨Option.none, some (.known ⟨"P2002", some ["idempotencyKey"]⟩),
        some (.unknown "connection reset")⟩ "id8"
        ⟨emptyPayload, some "k", none⟩ ⟨[], []⟩).logs.countP isErrorDetailEntry) = 0 := by
  refine ⟨by decide, by decide⟩

/-- C8 witness: the amended theorem applied three times — a raw-insert
connectivity failure, a normalization-insert connectivity failure, and a
lookup failure after an idempotency conflict. -/
theorem C8_witness :
    (ingestLead ⟨some (.unknown "conn"), Option.none, Option.none⟩ "w1"
        ⟨emptyPayload, some "k", none⟩ ⟨[], []⟩).outcome = .failure (.unknown "conn") ∧
    (ingestLead ⟨Option.none, some (.unknown "conn"), Option.none⟩ "w2"
        ⟨emptyPayload, some "k", none⟩ ⟨[], []⟩).outcome = .failure (.unknown "conn") ∧
    (ingestLead ⟨Option.none, some (.known ⟨"P2002", some ["idempotencyKey"]⟩),
        some (.unknown "conn")⟩ "w3"
        ⟨emptyPayload, some "k", none⟩ ⟨[], []⟩).outcome =
      .thrown (.unknown "conn") :=
  ⟨((C8_insert_failures_fatal_lookup_throws
      ⟨some (.unknown "conn"), Option.none, Option.none⟩ "w1"
      ⟨emptyPayload, some "k", none⟩ ⟨[], []⟩).1 (.unknown "conn") rfl (by decide)).1,
   ((C8_insert_failures_fatal_lookup_throws
      ⟨Option.none, some (.unknown "conn"), Option.none⟩ "w2"
      ⟨emptyPayload, some "k", none⟩ ⟨[], []⟩).2.1
      ⟨[⟨"w2", some "k", none, emptyPayload⟩], []⟩ (.unknown "conn")
      rfl rfl (by decide)).1,
   ((C8_insert_failures_fatal_lookup_throws
      ⟨Option.none, some (.known ⟨"P2002", some ["idempotencyKey"]⟩),
        some (.unknown "conn")⟩ "w3"
      ⟨emptyPayload, some "k", none⟩ ⟨[], []⟩).2.2
      ⟨[⟨"w3", some "k", none, emptyPayload⟩], []⟩
      (.known ⟨"P2002", some ["idempotencyKey"]⟩) (.unknown "conn")
      rfl rfl (by decide) rfl).1⟩

/-- C9 witness: a call with an empty-string key over a store that already
holds a null-key row succeeds with a fresh identifier and no dedup. -/
theorem C9_witness :
    (some "" : Option String) = some "" ∧
    (ingestLead Faults.none "w9" ⟨emptyPayload, some "", none⟩
        ⟨[⟨"other", none, none, emptyPayload⟩], []⟩).outcome =
      .success ⟨true, "w9", false⟩ :=
  ⟨rfl,
   ((C9_empty_key_like_absent Faults.none "w9" ⟨emptyPayload, some "", none⟩
      ⟨[⟨"other", none, none, emptyPayload⟩], []⟩ rfl).2 rfl
      (by simp) (by simp)).1⟩

/-- C10 witness: a null-key submission whose normalization insert fails
with an idempotency-classified error returns the identifier of the
unrelated first row of the `leads` table with `deduplicated = true`. -/
theorem C10_witness :
    (ingestLead ⟨Option.none, some (.known ⟨"P2002", some ["idempotencyKey"]⟩), Option.none⟩
        "idC" ⟨emptyPayload, none, none⟩
        ⟨[], [⟨"zzz", none, none, none, none, none, none, none, none, none,
          none, none, none, none, none, some "other", none, "new"⟩]⟩).outcome =
      .success ⟨true, "zzz", true⟩ ∧
    .findFirst none ∈
      (ingestLead ⟨Option.none, some (.known ⟨"P2002", some ["idempotencyKey"]⟩), Option.none⟩
        "idC" ⟨emptyPayload, none, none⟩
        ⟨[], [⟨"zzz", none, none, none, none, none, none, none, none, none,
          none, none, none, none, none, some "other", none, "new"⟩]⟩).ops :=
  ⟨(C10_null_key_lookup_unfiltered
      ⟨Option.none, some (.known ⟨"P2002", some ["idempotencyKey"]⟩), Option.none⟩
      "idC" ⟨emptyPayload, none, none⟩
      ⟨[], [⟨"zzz", none, none, none, none, none, none, none, none, none,
        none, none, none, none, none, some "other", none, "new"⟩]⟩
      ⟨[⟨"idC", none, none, emptyPayload⟩],
        [⟨"zzz", none, none, none, none, none, none, none, none, none,
          none, none, none, none, none, some "other", none, "new"⟩]⟩
      (.known ⟨"P2002", some ["idempotencyKey"]⟩)
      (⟨"zzz", none, none, none, none, none, none, none, none, none,
        none, none, none, none, none, some "other", none, "new"⟩ : LeadRow) []
      (Or.inl rfl) rfl rfl (by decide) rfl rfl).1,
   (C10_null_key_lookup_unfiltered
      ⟨Option.none, some (.known ⟨"P2002", some ["idempotencyKey"]⟩), Option.none⟩
      "idC" ⟨emptyPayload, none, none⟩
      ⟨[], [⟨"zzz", none, none, none, none, none, none, none, none, none,
        none, none, none, none, none, some "other", none, "new"⟩]⟩
      ⟨[⟨"idC", none, none, emptyPayload⟩],
        [⟨"zzz", none, none, none, none, none, none, none, none, none,
          none, none, none, none, none, some "other", none, "new"⟩]⟩
      (.known ⟨"P2002", some ["idempotencyKey"]⟩)
      (⟨"zzz", none, none, none, none, none, none, none, none, none,
        none, none, none, none, none, some "other", none, "new"⟩ : LeadRow) []
      (Or.inl rfl) rfl rfl (by decide) rfl rfl).2.1⟩

end LeadCRM
